import Mathlib

/-!
Verification development for the `checkpointz` API handler layer
(`pkg/api/handler.go`): the content-negotiating response pipeline.

The handler and dispatcher code (`pkg/api/handler.go`) is embedded
directly from the source. Collaborator code that lives outside the
provided sources (the response envelope in `pkg/api/response.go`, the
content-type machinery, the identifier parsers in `pkg/service/eth`,
and the low-level response writers) is modelled from the specification,
with the modelling noted on each definition.

Byte slices (`[]byte`) are modelled as `String` over their characters;
producers are pure zero-argument thunks, so each is modelled by the
value it deterministically returns, and `MarshalAs` additionally
reports which producers it invoked, so laziness claims can be stated.
-/

namespace Checkpointz

/-- Raw bytes, modelled as the string of their characters. -/
abbrev Bytes := String

/-- Modelled from the spec: `ContentType` is an enumerated value in
`{JSON, OctetStreamEncoded}` (SSZ). -/
inductive ContentType where
  | json
  | ssz
deriving DecidableEq, Repr

/-- The wire name of a content type, used for the `Content-Type` header. -/
def ContentType.headerValue : ContentType → String
  | ContentType.json => "application/json"
  | ContentType.ssz => "application/octet-stream"

/-- Modelled from the spec: a producer is a zero-argument, deterministic,
side-effect-free function returning `(bytes, error)`; it is represented
by the result it returns when invoked. -/
abbrev Producer := Except String Bytes

instance : DecidableEq Producer := fun a b =>
  match a, b with
  | Except.ok x, Except.ok y =>
    if h : x = y then isTrue (by rw [h]) else isFalse (by intro c; cases c; exact h rfl)
  | Except.ok _, Except.error _ => isFalse (by intro c; cases c)
  | Except.error _, Except.ok _ => isFalse (by intro c; cases c)
  | Except.error x, Except.error y =>
    if h : x = y then isTrue (by rw [h]) else isFalse (by intro c; cases c; exact h rfl)

/-- Modelled from the spec: the per-response mapping from `ContentType`
to an optional registered producer (`ContentTypeResolvers` in the source). -/
structure ContentTypeResolvers where
  json : Option Producer := none
  ssz : Option Producer := none
deriving DecidableEq, Repr

/-- Look up the producer registered for a content type. -/
def ContentTypeResolvers.get : ContentTypeResolvers → ContentType → Option Producer
  | r, ContentType.json => r.json
  | r, ContentType.ssz => r.ssz

/-- Modelled from the spec: the `HTTPResponse` envelope holds an HTTP
status code (none when no explicit status was set), a header mapping
with unique keys, and the per-content-type producers. -/
structure HTTPResponse where
  statusCode : Option Nat := none
  headers : List (String × String) := []
  resolvers : ContentTypeResolvers := {}
deriving DecidableEq, Repr

/-- Set a header, keeping keys unique: last write wins. -/
def setHeaderList (hs : List (String × String)) (name value : String) :
    List (String × String) :=
  if hs.any (fun p => p.1 == name) then
    hs.map (fun p => if p.1 == name then (name, value) else p)
  else
    hs ++ [(name, value)]

/-- Modelled from the spec: `Envelope.SetCacheControl(directive)` sets the
`Cache-Control` header on the envelope. -/
def HTTPResponse.setCacheControl (r : HTTPResponse) (directive : String) : HTTPResponse :=
  { r with headers := setHeaderList r.headers "Cache-Control" directive }

/-- Modelled from the spec: `NewSuccessResponse(producers)` builds a 200
envelope carrying the given producers. The Go constructor takes a headers
map; every call site in the handler passes none. -/
def NewSuccessResponse (resolvers : ContentTypeResolvers) : HTTPResponse :=
  { statusCode := some 200, headers := [], resolvers := resolvers }

/-- Modelled from the spec: a 415 envelope with no producers. -/
def NewUnsupportedMediaTypeResponse : HTTPResponse :=
  { statusCode := some 415 }

/-- Modelled from the spec: a 400 envelope with no producers. -/
def NewBadRequestResponse : HTTPResponse :=
  { statusCode := some 400 }

/-- Modelled from the spec: a 500 envelope with no producers. -/
def NewInternalServerErrorResponse : HTTPResponse :=
  { statusCode := some 500 }

/-- Modelled from the spec: `MarshalAs` resolves the envelope to bytes for
the negotiated content type, failing with `NoProducerForContentType` when
no producer is registered for it. The second component instruments which
producers were invoked, so that laziness can be stated: the registered
producer for the negotiated type is invoked exactly when it exists, and
no other producer is ever run. -/
def HTTPResponse.MarshalAs (r : HTTPResponse) (ct : ContentType) :
    Except String Bytes × List ContentType :=
  match r.resolvers.get ct with
  | none => (Except.error "no resolver found for requested content-type", [])
  | some p => (p, [ct])

/-- The message of an `UnsupportedMediaType` error, carrying the
rejected type and the allowed set. -/
def unsupportedMsg (ct : ContentType) (allowed : List ContentType) : String :=
  "unsupported content-type: " ++ ct.headerValue ++ "; allowed: "
    ++ String.intercalate ", " (allowed.map ContentType.headerValue)

/-- Modelled from the spec: `ValidateContentType` fails with
`UnsupportedMediaType` when the negotiated type is not in the endpoint's
allowed set, carrying the rejected type and the allowed set. -/
def ValidateContentType (ct : ContentType) (allowed : List ContentType) :
    Except String Unit :=
  if allowed.contains ct then
    Except.ok ()
  else
    Except.error (unsupportedMsg ct allowed)

/-- The variant (type) of a block identifier (`eth.BlockIDRoot` etc.). -/
inductive BlockIDType where
  | root
  | genesis
  | slot
  | finalized
  | head
deriving DecidableEq, Repr

/-- Modelled from the spec: a block identifier is a tagged variant over
`{Root(32-byte hash), Genesis, Slot(non-negative integer), Finalized, Head}`. -/
inductive BlockIdentifier where
  | root (bytes : List Nat)
  | genesis
  | slot (n : Nat)
  | finalized
  | head
deriving DecidableEq, Repr

/-- `BlockIdentifier.Type()` in the source. -/
def BlockIdentifier.idType : BlockIdentifier → BlockIDType
  | BlockIdentifier.root _ => BlockIDType.root
  | BlockIdentifier.genesis => BlockIDType.genesis
  | BlockIdentifier.slot _ => BlockIDType.slot
  | BlockIdentifier.finalized => BlockIDType.finalized
  | BlockIdentifier.head => BlockIDType.head

/-- The variant (type) of a state identifier (`eth.StateIDRoot` etc.). -/
inductive StateIDType where
  | root
  | genesis
  | slot
  | finalized
  | head
deriving DecidableEq, Repr

/-- Modelled from the spec: a state identifier, same variants as a block
identifier. -/
inductive StateIdentifier where
  | root (bytes : List Nat)
  | genesis
  | slot (n : Nat)
  | finalized
  | head
deriving DecidableEq, Repr

/-- `StateIdentifier.Type()` in the source. -/
def StateIdentifier.idType : StateIdentifier → StateIDType
  | StateIdentifier.root _ => StateIDType.root
  | StateIdentifier.genesis => StateIDType.genesis
  | StateIdentifier.slot _ => StateIDType.slot
  | StateIdentifier.finalized => StateIDType.finalized
  | StateIdentifier.head => StateIDType.head

/-- Is `c` a decimal digit? -/
def isDecimalDigit (c : Char) : Bool := '0' ≤ c && c ≤ '9'

/-- Is `c` a hexadecimal digit? -/
def isHexDigitChar (c : Char) : Bool :=
  isDecimalDigit c || ('a' ≤ c && c ≤ 'f') || ('A' ≤ c && c ≤ 'F')

/-- Numeric value of a hexadecimal digit. -/
def hexVal (c : Char) : Nat :=
  if isDecimalDigit c then c.toNat - '0'.toNat
  else if 'a' ≤ c && c ≤ 'f' then c.toNat - 'a'.toNat + 10
  else c.toNat - 'A'.toNat + 10

/-- Decode pairs of hex digits into bytes. -/
def hexPairsToBytes : List Char → List Nat
  | a :: b :: rest => (hexVal a * 16 + hexVal b) :: hexPairsToBytes rest
  | _ => []

/-- Value of a decimal digit string. -/
def decimalToNat (cs : List Char) : Nat :=
  cs.foldl (fun acc c => acc * 10 + (c.toNat - '0'.toNat)) 0

/-- Modelled from the spec: `eth.NewBlockIdentifier` parses a raw path
segment: literals `genesis`/`head`/`finalized` (lowercase, case-sensitive),
a `0x`-prefixed 32-byte hex string as `Root`, a decimal digit string as
`Slot`, anything else fails with an invalid-identifier error. -/
def NewBlockIdentifier (raw : String) : Except String BlockIdentifier :=
  if raw = "genesis" then Except.ok BlockIdentifier.genesis
  else if raw = "head" then Except.ok BlockIdentifier.head
  else if raw = "finalized" then Except.ok BlockIdentifier.finalized
  else
    let cs := raw.data
    if (cs.take 2 == ['0', 'x']) && ((cs.drop 2).length == 64)
        && (cs.drop 2).all isHexDigitChar then
      Except.ok (BlockIdentifier.root (hexPairsToBytes (cs.drop 2)))
    else if (!cs.isEmpty) && cs.all isDecimalDigit then
      Except.ok (BlockIdentifier.slot (decimalToNat cs))
    else
      Except.error ("invalid block identifier: " ++ raw)

/-- Modelled from the spec: `eth.NewStateIdentifier`, with the same parsing
rules as block identifiers. -/
def NewStateIdentifier (raw : String) : Except String StateIdentifier :=
  if raw = "genesis" then Except.ok StateIdentifier.genesis
  else if raw = "head" then Except.ok StateIdentifier.head
  else if raw = "finalized" then Except.ok StateIdentifier.finalized
  else
    let cs := raw.data
    if (cs.take 2 == ['0', 'x']) && ((cs.drop 2).length == 64)
        && (cs.drop 2).all isHexDigitChar then
      Except.ok (StateIdentifier.root (hexPairsToBytes (cs.drop 2)))
    else if (!cs.isEmpty) && cs.all isDecimalDigit then
      Except.ok (StateIdentifier.slot (decimalToNat cs))
    else
      Except.error ("invalid state identifier: " ++ raw)

/-- Modelled from the spec: `eth.NewSlotFromString` accepts a decimal
integer only, not a full identifier. -/
def NewSlotFromString (raw : String) : Except String Nat :=
  if (!raw.data.isEmpty) && raw.data.all isDecimalDigit then
    Except.ok (decimalToNat raw.data)
  else
    Except.error ("invalid slot: " ++ raw)

/-- The fork-version tag of a fetched block (`spec.DataVersion`); versions
beyond the three the handler knows are `other`. -/
inductive DataVersion where
  | phase0
  | altair
  | bellatrix
  | other (tag : Nat)
deriving DecidableEq, Repr

/-- The encoders one fork-version of a block exposes: `MarshalJSON` and
`MarshalSSZ`, each modelled by the producer result it returns. -/
structure VersionData where
  marshalJSON : Producer
  marshalSSZ : Producer
deriving DecidableEq, Repr

/-- A versioned beacon block as returned by the block provider: a version
tag plus the per-version payloads (`block.Phase0` etc.). -/
structure VersionedBlock where
  version : DataVersion
  phase0 : VersionData
  altair : VersionData
  bellatrix : VersionData
deriving DecidableEq, Repr

/-- An observable step on the request's data path: content-type
validation, identifier parsing, or a call into a business-logic
provider. Handlers are embedded so that they also return the ordered
trace of these steps, letting short-circuit claims be stated. -/
inductive Event where
  | validateContentType
  | parseBlockID
  | parseStateID
  | parseSlot
  | callBeaconBlock
  | callBeaconState
  | callBlockRoot
  | callFinalityCheckpoints
  | callV1Status
  | callV1BeaconSlots
  | callV1BeaconSlot
deriving DecidableEq, Repr

/-- Result of a wrapped handler: the envelope, the Go error value, and
the trace of data-path steps taken. -/
abbrev HandlerResult := HTTPResponse × Option String × List Event

/-- The cache directive `handleEthV2BeaconBlocks` sets per block
identifier variant (the switch at the end of the handler). -/
def blockCacheDirective : BlockIDType → String
  | BlockIDType.root | BlockIDType.genesis | BlockIDType.slot => "public, s-max-age=6000"
  | BlockIDType.finalized => "public, s-max-age=30"
  | BlockIDType.head => "public, s-max-age=30"

/-- The cache directive `handleEthV2DebugBeaconStates` sets per state
identifier variant (the switch at the end of the handler). -/
def stateCacheDirective : StateIDType → String
  | StateIDType.root | StateIDType.genesis | StateIDType.slot => "public, s-max-age=6000"
  | StateIDType.finalized => "public, s-max-age=180"
  | StateIDType.head => "public, s-max-age=30"

/-- The `s-max-age` seconds of a cache directive string of the form
`public, s-max-age=<seconds>`: the value of its trailing digit run. -/
def sMaxAge (directive : String) : Nat :=
  decimalToNat (directive.data.reverse.takeWhile isDecimalDigit).reverse

/-- The resolvers `handleEthV2BeaconBlocks` registers for a fetched
block: the version switch selects the matching payload's `MarshalJSON`
and `MarshalSSZ`; an unknown version selects nothing. -/
def blockVersionResolvers (block : VersionedBlock) : Option ContentTypeResolvers :=
  match block.version with
  | DataVersion.phase0 =>
      some { json := some block.phase0.marshalJSON, ssz := some block.phase0.marshalSSZ }
  | DataVersion.altair =>
      some { json := some block.altair.marshalJSON, ssz := some block.altair.marshalSSZ }
  | DataVersion.bellatrix =>
      some { json := some block.bellatrix.marshalJSON, ssz := some block.bellatrix.marshalSSZ }
  | DataVersion.other _ => none

/-- `handleEthV2BeaconBlocks`, embedded from the source with the block
provider `h.eth.BeaconBlock` passed as an oracle. -/
def handleEthV2BeaconBlocks
    (beaconBlock : BlockIdentifier → Except String VersionedBlock)
    (blockIdRaw : String) (contentType : ContentType) : HandlerResult :=
  match ValidateContentType contentType [ContentType.json, ContentType.ssz] with
  | Except.error e => (NewUnsupportedMediaTypeResponse, some e, [Event.validateContentType])
  | Except.ok _ =>
  match NewBlockIdentifier blockIdRaw with
  | Except.error e =>
      (NewBadRequestResponse, some e, [Event.validateContentType, Event.parseBlockID])
  | Except.ok blockID =>
  match beaconBlock blockID with
  | Except.error e =>
      (NewInternalServerErrorResponse, some e,
        [Event.validateContentType, Event.parseBlockID, Event.callBeaconBlock])
  | Except.ok block =>
  match blockVersionResolvers block with
  | none =>
      (NewInternalServerErrorResponse, some "unknown block version",
        [Event.validateContentType, Event.parseBlockID, Event.callBeaconBlock])
  | some resolvers =>
      ((NewSuccessResponse resolvers).setCacheControl (blockCacheDirective blockID.idType),
        none,
        [Event.validateContentType, Event.parseBlockID, Event.callBeaconBlock])

/-- `handleEthV2DebugBeaconStates`, embedded from the source with the
state provider `h.eth.BeaconState` passed as an oracle; the provider
returns an optional byte slice (a nil pointer is `none` and is rejected
by the handler's nil check). -/
def handleEthV2DebugBeaconStates
    (beaconState : StateIdentifier → Except String (Option Bytes))
    (stateIdRaw : String) (contentType : ContentType) : HandlerResult :=
  match ValidateContentType contentType [ContentType.ssz] with
  | Except.error e => (NewUnsupportedMediaTypeResponse, some e, [Event.validateContentType])
  | Except.ok _ =>
  match NewStateIdentifier stateIdRaw with
  | Except.error e =>
      (NewBadRequestResponse, some e, [Event.validateContentType, Event.parseStateID])
  | Except.ok id =>
  match beaconState id with
  | Except.error e =>
      (NewInternalServerErrorResponse, some e,
        [Event.validateContentType, Event.parseStateID, Event.callBeaconState])
  | Except.ok none =>
      (NewInternalServerErrorResponse, some "state not found",
        [Event.validateContentType, Event.parseStateID, Event.callBeaconState])
  | Except.ok (some state) =>
      ((NewSuccessResponse { ssz := some (Except.ok state) }).setCacheControl
          (stateCacheDirective id.idType),
        none,
        [Event.validateContentType, Event.parseStateID, Event.callBeaconState])

/-- `handleCheckpointzStatus`, embedded from the source; the status
provider is modelled by the JSON serialization of the status it returns,
since the handler only uses the status through `json.Marshal`. -/
def handleCheckpointzStatus
    (v1Status : Except String Bytes) (contentType : ContentType) : HandlerResult :=
  match ValidateContentType contentType [ContentType.json] with
  | Except.error e => (NewUnsupportedMediaTypeResponse, some e, [Event.validateContentType])
  | Except.ok _ =>
  match v1Status with
  | Except.error e =>
      (NewInternalServerErrorResponse, some e,
        [Event.validateContentType, Event.callV1Status])
  | Except.ok status =>
      (NewSuccessResponse { json := some (Except.ok status) }, none,
        [Event.validateContentType, Event.callV1Status])

/-- `handleCheckpointzBeaconSlots`, embedded from the source; the slots
provider is modelled by the JSON serialization of its result. -/
def handleCheckpointzBeaconSlots
    (v1BeaconSlots : Except String Bytes) (contentType : ContentType) : HandlerResult :=
  match ValidateContentType contentType [ContentType.json] with
  | Except.error e => (NewUnsupportedMediaTypeResponse, some e, [Event.validateContentType])
  | Except.ok _ =>
  match v1BeaconSlots with
  | Except.error e =>
      (NewInternalServerErrorResponse, some e,
        [Event.validateContentType, Event.callV1BeaconSlots])
  | Except.ok slots =>
      (NewSuccessResponse { json := some (Except.ok slots) }, none,
        [Event.validateContentType, Event.callV1BeaconSlots])

/-- `handleCheckpointzBeaconSlot`, embedded from the source; the
per-slot provider is modelled by the JSON serialization of its result. -/
def handleCheckpointzBeaconSlot
    (v1BeaconSlot : Nat → Except String Bytes)
    (slotRaw : String) (contentType : ContentType) : HandlerResult :=
  match ValidateContentType contentType [ContentType.json] with
  | Except.error e => (NewUnsupportedMediaTypeResponse, some e, [Event.validateContentType])
  | Except.ok _ =>
  match NewSlotFromString slotRaw with
  | Except.error e =>
      (NewBadRequestResponse, some e, [Event.validateContentType, Event.parseSlot])
  | Except.ok slot =>
  match v1BeaconSlot slot with
  | Except.error e =>
      (NewInternalServerErrorResponse, some e,
        [Event.validateContentType, Event.parseSlot, Event.callV1BeaconSlot])
  | Except.ok slots =>
      (NewSuccessResponse { json := some (Except.ok slots) }, none,
        [Event.validateContentType, Event.parseSlot, Event.callV1BeaconSlot])

/-- `handleEthV1BeaconStatesHeadFinalityCheckpoints`, embedded from the
source; the finality provider is modelled by the JSON serialization of
the checkpoints it returns. -/
def handleEthV1BeaconStatesHeadFinalityCheckpoints
    (finalityCheckpoints : StateIdentifier → Except String Bytes)
    (stateIdRaw : String) (contentType : ContentType) : HandlerResult :=
  match ValidateContentType contentType [ContentType.json] with
  | Except.error e => (NewUnsupportedMediaTypeResponse, some e, [Event.validateContentType])
  | Except.ok _ =>
  match NewStateIdentifier stateIdRaw with
  | Except.error e =>
      (NewBadRequestResponse, some e, [Event.validateContentType, Event.parseStateID])
  | Except.ok id =>
  match finalityCheckpoints id with
  | Except.error e =>
      (NewInternalServerErrorResponse, some e,
        [Event.validateContentType, Event.parseStateID, Event.callFinalityCheckpoints])
  | Except.ok finality =>
      (NewSuccessResponse { json := some (Except.ok finality) }, none,
        [Event.validateContentType, Event.parseStateID, Event.callFinalityCheckpoints])

/-- Lowercase hex digit for a value below 16. -/
def hexDigitChar (n : Nat) : Char :=
  if n < 10 then Char.ofNat ('0'.toNat + n) else Char.ofNat ('a'.toNat + (n - 10))

/-- Lowercase two-digit-per-byte hex rendering of a byte slice, as
`fmt.Sprintf("%x", ...)` produces. -/
def hexOfBytes (bs : List Nat) : String :=
  String.mk (bs.foldr (fun b acc => hexDigitChar (b / 16) :: hexDigitChar (b % 16) :: acc) [])

/-- The JSON body `json.Marshal` produces for the anonymous
`struct { Root string }` wrapper in `handleEthV1BeaconBlocksRoot`. -/
def jsonRootBody (hex : String) : Bytes :=
  "\x7b\"root\":\"" ++ hex ++ "\"\x7d"

/-- `handleEthV1BeaconBlocksRoot`, embedded from the source with the
root provider `h.eth.BlockRoot` passed as an oracle returning the raw
root bytes. Note the source sets no cache directive on this handler. -/
def handleEthV1BeaconBlocksRoot
    (blockRoot : BlockIdentifier → Except String (List Nat))
    (blockIdRaw : String) (contentType : ContentType) : HandlerResult :=
  match ValidateContentType contentType [ContentType.json] with
  | Except.error e => (NewUnsupportedMediaTypeResponse, some e, [Event.validateContentType])
  | Except.ok _ =>
  match NewBlockIdentifier blockIdRaw with
  | Except.error e =>
      (NewBadRequestResponse, some e, [Event.validateContentType, Event.parseBlockID])
  | Except.ok id =>
  match blockRoot id with
  | Except.error e =>
      (NewInternalServerErrorResponse, some e,
        [Event.validateContentType, Event.parseBlockID, Event.callBlockRoot])
  | Except.ok root =>
      (NewSuccessResponse { json := some (Except.ok (jsonRootBody (hexOfBytes root))) },
        none,
        [Event.validateContentType, Event.parseBlockID, Event.callBlockRoot])

/-- An action performed on the `http.ResponseWriter`: setting a header,
writing the status code, or writing body bytes. -/
inductive WAction where
  | setHeader (name value : String)
  | writeStatus (code : Nat)
  | writeBody (body : Bytes)
deriving DecidableEq, Repr

/-- Is this action a header write? -/
def WAction.isSetHeader : WAction → Bool
  | WAction.setHeader _ _ => true
  | _ => false

/-- Is this action a body write? -/
def WAction.isBody : WAction → Bool
  | WAction.writeBody _ => true
  | _ => false

/-- The JSON body of an `ErrorResponse`: `\x7b"message": string\x7d`. -/
def jsonErrorBody (msg : String) : Bytes :=
  "\x7b\"message\":\"" ++ msg ++ "\"\x7d"

/-- Modelled from the spec: `WriteErrorResponse` writes a JSON
`ErrorResponse` with the status code carried on the envelope, defaulting
to 500 if the envelope carries no explicit status. -/
def writeErrorResponseActions (msg : String) (code : Option Nat) : List WAction :=
  [WAction.setHeader "Content-Type" "application/json",
   WAction.writeStatus (code.getD 500),
   WAction.writeBody (jsonErrorBody msg)]

/-- Modelled from the spec: `WriteContentAwareResponse` writes the final
bytes with the `Content-Type` of the negotiated encoding. -/
def writeContentAwareActions (data : Bytes) (ct : ContentType) : List WAction :=
  [WAction.setHeader "Content-Type" ct.headerValue,
   WAction.writeBody data]

/-- The observable outcome of one dispatched request: the ordered writer
actions, the status code the deferred `ObserveResponse` metric recorded
(none when the dispatcher panicked before observing), and whether the
dispatcher panicked. -/
structure DispatchResult where
  actions : List WAction
  observed : Option Nat
  panicked : Bool
deriving DecidableEq, Repr

/-- The status value Go reads from the envelope: the struct's zero value
0 when no explicit status was set. -/
def HTTPResponse.statusVal (r : HTTPResponse) : Nat := r.statusCode.getD 0

/-- `wrappedHandler`, embedded from the source. The wrapped handler's
returned pair is passed in: an optional envelope (Go returns a possibly
nil pointer) and an optional error. On a non-nil error the dispatcher
writes an `ErrorResponse` with the envelope's status; on success it
marshals for the negotiated type, writes a 500 `ErrorResponse` when
marshaling fails, and otherwise sets the envelope's headers and then
writes the body. A nil envelope makes the dispatcher dereference
`response.StatusCode` (in the error path, or in `MarshalAs` and the
deferred metrics observation), modelled as a panic with no actions. -/
def wrappedHandler (handlerResult : Option HTTPResponse × Option String)
    (contentType : ContentType) : DispatchResult :=
  match handlerResult with
  | (none, _) =>
      { actions := [], observed := none, panicked := true }
  | (some response, some e) =>
      { actions := writeErrorResponseActions e response.statusCode,
        observed := some response.statusVal,
        panicked := false }
  | (some response, none) =>
      match (response.MarshalAs contentType).1 with
      | Except.error e =>
          { actions := writeErrorResponseActions e (some 500),
            observed := some response.statusVal,
            panicked := false }
      | Except.ok data =>
          { actions := (response.headers.map fun p => WAction.setHeader p.1 p.2)
              ++ writeContentAwareActions data contentType,
            observed := some response.statusVal,
            panicked := false }

/-- `strings.Replace(s, old, new, 1)`: replace the first occurrence of
`old` in `s` (when `old` is empty, insert `new` at the front). -/
def replaceFirstChars (old nw : List Char) : List Char → List Char
  | [] => if old.isPrefixOf ([] : List Char) then nw else []
  | c :: rest =>
      if old.isPrefixOf (c :: rest) then nw ++ (c :: rest).drop old.length
      else c :: replaceFirstChars old nw rest

/-- String version of `replaceFirstChars`. -/
def replaceFirstStr (s old nw : String) : String :=
  String.mk (replaceFirstChars old.data nw.data s.data)

/-- `deriveRegisteredPath`, embedded from the source: for each matched
path parameter, replace the first occurrence of its value in the raw
URL path by `:` followed by the parameter's key. -/
def deriveRegisteredPath (path : String) (params : List (String × String)) : String :=
  params.foldl (fun registeredPath param =>
    replaceFirstStr registeredPath param.2 (":" ++ param.1)) path

/-- The concrete block-root scenario: `GET /eth/v1/beacon/blocks/123/root`
negotiated as JSON, with the root provider returning the 32-byte root
`0xAA..AA`. -/
def blockRootScenario : HandlerResult :=
  handleEthV1BeaconBlocksRoot (fun _ => Except.ok (List.replicate 32 170)) "123"
    ContentType.json

/-- A fetched block carrying an unrecognized version tag. -/
def unknownVersionBlock : VersionedBlock :=
  { version := DataVersion.other 4,
    phase0 := { marshalJSON := Except.ok "", marshalSSZ := Except.ok "" },
    altair := { marshalJSON := Except.ok "", marshalSSZ := Except.ok "" },
    bellatrix := { marshalJSON := Except.ok "", marshalSSZ := Except.ok "" } }

/-- C1: For every response envelope and every negotiated content type,
`MarshalAs` invokes at most one registered producer, and only the
producer registered for the negotiated content type; producers
registered for any other content type are never invoked. -/
theorem marshalAs_invokes_only_negotiated_producer (r : HTTPResponse) (ct : ContentType) :
    ((r.MarshalAs ct).2.all fun c => c == ct) = true ∧ (r.MarshalAs ct).2.length ≤ 1 := by
  unfold HTTPResponse.MarshalAs
  cases h : r.resolvers.get ct <;> simp [h]

/-- C3: In each endpoint that sets a cache directive, the `s-max-age`
seconds satisfy TTL(Root) = TTL(Genesis) = TTL(Slot) ≥ TTL(Finalized)
≥ TTL(Head): blocks use 6000/6000/6000/30/30 and debug states use
6000/6000/6000/180/30. -/
theorem cache_directive_ttl_ordering :
    (sMaxAge (blockCacheDirective BlockIDType.root)
        = sMaxAge (blockCacheDirective BlockIDType.genesis)
      ∧ sMaxAge (blockCacheDirective BlockIDType.genesis)
        = sMaxAge (blockCacheDirective BlockIDType.slot)
      ∧ sMaxAge (blockCacheDirective BlockIDType.finalized)
        ≤ sMaxAge (blockCacheDirective BlockIDType.slot)
      ∧ sMaxAge (blockCacheDirective BlockIDType.head)
        ≤ sMaxAge (blockCacheDirective BlockIDType.finalized))
    ∧ (sMaxAge (stateCacheDirective StateIDType.root)
        = sMaxAge (stateCacheDirective StateIDType.genesis)
      ∧ sMaxAge (stateCacheDirective StateIDType.genesis)
        = sMaxAge (stateCacheDirective StateIDType.slot)
      ∧ sMaxAge (stateCacheDirective StateIDType.finalized)
        ≤ sMaxAge (stateCacheDirective StateIDType.slot)
      ∧ sMaxAge (stateCacheDirective StateIDType.head)
        ≤ sMaxAge (stateCacheDirective StateIDType.finalized)) := by
  decide

/-- C4: When the wrapped handler returns a non-nil error alongside an
envelope, the dispatcher writes an `ErrorResponse` carrying the
envelope's status code, the written status defaulting to 500 when the
envelope carries no explicit status. -/
theorem dispatcher_error_writes_envelope_status
    (resp : HTTPResponse) (e : String) (ct : ContentType) :
    (wrappedHandler (some resp, some e) ct).actions
      = writeErrorResponseActions e resp.statusCode
    ∧ WAction.writeStatus (resp.statusCode.getD 500)
      ∈ (wrappedHandler (some resp, some e) ct).actions := by
  unfold wrappedHandler writeErrorResponseActions
  simp

/-- C8: A wrapped handler returning a nil envelope together with an
error makes the dispatcher dereference the nil envelope and panic: no
`ErrorResponse` (indeed no writer action) is produced and no metrics
observation is recorded. -/
theorem dispatcher_nil_envelope_panics (e : String) (ct : ContentType) :
    wrappedHandler (none, some e) ct
      = { actions := [], observed := none, panicked := true } := rfl

/-- C9: Route-template normalization substitutes by value equality on
the first substring occurrence: with slot parameter value `v1`, the
raw path `/checkpointz/v1/beacon/slots/v1` normalizes to
`/checkpointz/:slot/beacon/slots/v1`, not to
`/checkpointz/v1/beacon/slots/:slot`. -/
theorem deriveRegisteredPath_replaces_first_occurrence :
    deriveRegisteredPath "/checkpointz/v1/beacon/slots/v1" [("slot", "v1")]
      = "/checkpointz/:slot/beacon/slots/v1"
    ∧ deriveRegisteredPath "/checkpointz/v1/beacon/slots/v1" [("slot", "v1")]
      ≠ "/checkpointz/v1/beacon/slots/:slot" := by
  decide

/-- C2: On every route, when the negotiated content type is not in the
endpoint's allowed set, the handler returns the 415 envelope with an
error and its data-path trace is exactly the content-type validation:
no identifier parsing and no provider call happens. (Under the spec's
two-value content-type enumeration, the v2 blocks endpoint allows every
content type, so its conjunct is vacuously satisfied.) -/
theorem negotiation_failure_short_circuits (ct : ContentType) :
    (ct ∉ [ContentType.json, ContentType.ssz] →
      ∀ bb raw, handleEthV2BeaconBlocks bb raw ct
        = (NewUnsupportedMediaTypeResponse,
            some (unsupportedMsg ct [ContentType.json, ContentType.ssz]),
            [Event.validateContentType]))
    ∧ (ct ∉ [ContentType.ssz] →
      ∀ bs raw, handleEthV2DebugBeaconStates bs raw ct
        = (NewUnsupportedMediaTypeResponse, some (unsupportedMsg ct [ContentType.ssz]),
            [Event.validateContentType]))
    ∧ (ct ∉ [ContentType.json] →
      ∀ st, handleCheckpointzStatus st ct
        = (NewUnsupportedMediaTypeResponse, some (unsupportedMsg ct [ContentType.json]),
            [Event.validateContentType]))
    ∧ (ct ∉ [ContentType.json] →
      ∀ sl, handleCheckpointzBeaconSlots sl ct
        = (NewUnsupportedMediaTypeResponse, some (unsupportedMsg ct [ContentType.json]),
            [Event.validateContentType]))
    ∧ (ct ∉ [ContentType.json] →
      ∀ f raw, handleCheckpointzBeaconSlot f raw ct
        = (NewUnsupportedMediaTypeResponse, some (unsupportedMsg ct [ContentType.json]),
            [Event.validateContentType]))
    ∧ (ct ∉ [ContentType.json] →
      ∀ f raw, handleEthV1BeaconStatesHeadFinalityCheckpoints f raw ct
        = (NewUnsupportedMediaTypeResponse, some (unsupportedMsg ct [ContentType.json]),
            [Event.validateContentType]))
    ∧ (ct ∉ [ContentType.json] →
      ∀ f raw, handleEthV1BeaconBlocksRoot f raw ct
        = (NewUnsupportedMediaTypeResponse, some (unsupportedMsg ct [ContentType.json]),
            [Event.validateContentType])) := by
  refine ⟨?_, ?_, ?_, ?_, ?_, ?_, ?_⟩
  · intro h
    cases ct <;> simp at h
  · intro h
    cases ct with
    | json => exact fun bs raw => rfl
    | ssz => simp at h
  · intro h
    cases ct with
    | json => simp at h
    | ssz => exact fun st => rfl
  · intro h
    cases ct with
    | json => simp at h
    | ssz => exact fun sl => rfl
  · intro h
    cases ct with
    | json => simp at h
    | ssz => exact fun f raw => rfl
  · intro h
    cases ct with
    | json => simp at h
    | ssz => exact fun f raw => rfl
  · intro h
    cases ct with
    | json => simp at h
    | ssz => exact fun f raw => rfl

/-- Witness for C2: JSON is not allowed on the SSZ-only debug states
endpoint, and the handler then answers 415 with trace exactly the
validation step, its provider untouched. -/
theorem negotiation_failure_short_circuits_witness :
    ContentType.json ∉ [ContentType.ssz]
    ∧ handleEthV2DebugBeaconStates (fun _ => Except.error "provider must not run") "head"
        ContentType.json
      = (NewUnsupportedMediaTypeResponse,
          some (unsupportedMsg ContentType.json [ContentType.ssz]),
          [Event.validateContentType]) :=
  ⟨by decide,
    (negotiation_failure_short_circuits ContentType.json).2.1 (by decide)
      (fun _ => Except.error "provider must not run") "head"⟩

/-- C6: A fetched block whose version tag is none of Phase0, Altair or
Bellatrix makes the blocks handler return an error together with the
internal-server-error envelope, so the request is answered with 500 and
no block body is produced. -/
theorem unknown_version_maps_to_500
    (bb : BlockIdentifier → Except String VersionedBlock) (raw : String)
    (ct : ContentType) (id : BlockIdentifier) (block : VersionedBlock) (tag : Nat)
    (hv : ValidateContentType ct [ContentType.json, ContentType.ssz] = Except.ok ())
    (hp : NewBlockIdentifier raw = Except.ok id)
    (hb : bb id = Except.ok block)
    (hver : block.version = DataVersion.other tag) :
    (handleEthV2BeaconBlocks bb raw ct).1 = NewInternalServerErrorResponse
    ∧ (handleEthV2BeaconBlocks bb raw ct).1.statusCode = some 500
    ∧ (handleEthV2BeaconBlocks bb raw ct).2.1 = some "unknown block version" := by
  simp [handleEthV2BeaconBlocks, blockVersionResolvers, hv, hp, hb, hver,
    NewInternalServerErrorResponse]

/-- Witness for C6: a block tagged with the unknown version 4, fetched
through `head` negotiated as JSON, yields the 500 envelope and the
unknown-version error. -/
theorem unknown_version_maps_to_500_witness :
    unknownVersionBlock.version = DataVersion.other 4
    ∧ (handleEthV2BeaconBlocks (fun _ => Except.ok unknownVersionBlock) "head"
        ContentType.json).1.statusCode = some 500
    ∧ (handleEthV2BeaconBlocks (fun _ => Except.ok unknownVersionBlock) "head"
        ContentType.json).2.1 = some "unknown block version" :=
  ⟨rfl,
    (unknown_version_maps_to_500 (fun _ => Except.ok unknownVersionBlock) "head"
      ContentType.json BlockIdentifier.head unknownVersionBlock 4 rfl rfl rfl rfl).2.1,
    (unknown_version_maps_to_500 (fun _ => Except.ok unknownVersionBlock) "head"
      ContentType.json BlockIdentifier.head unknownVersionBlock 4 rfl rfl rfl rfl).2.2⟩

/-- C10: The deferred response metric is keyed by the envelope's status
code, not by the status actually written: when the handler succeeds but
`MarshalAs` fails, `ObserveResponse` records the success envelope's
status while the client is sent a 500 `ErrorResponse`. -/
theorem metrics_observe_envelope_status
    (resp : HTTPResponse) (ct : ContentType) (s : Nat) (e : String)
    (hs : resp.statusCode = some s)
    (hm : (resp.MarshalAs ct).1 = Except.error e) :
    (wrappedHandler (some resp, none) ct).observed = some s
    ∧ WAction.writeStatus 500 ∈ (wrappedHandler (some resp, none) ct).actions := by
  simp only [wrappedHandler, hm]
  refine ⟨?_, ?_⟩
  · simp [HTTPResponse.statusVal, hs]
  · simp [writeErrorResponseActions]

/-- Witness for C10: a 200 success envelope with only a JSON producer,
marshaled as SSZ: the metric observes 200 while a 500 status is
written. -/
theorem metrics_observe_envelope_status_witness :
    (NewSuccessResponse { json := some (Except.ok "body") }).statusCode = some 200
    ∧ ((NewSuccessResponse { json := some (Except.ok "body") }).MarshalAs ContentType.ssz).1
      = Except.error "no resolver found for requested content-type"
    ∧ (wrappedHandler (some (NewSuccessResponse { json := some (Except.ok "body") }), none)
        ContentType.ssz).observed = some 200
    ∧ WAction.writeStatus 500
      ∈ (wrappedHandler (some (NewSuccessResponse { json := some (Except.ok "body") }), none)
          ContentType.ssz).actions :=
  ⟨rfl, rfl,
    (metrics_observe_envelope_status (NewSuccessResponse { json := some (Except.ok "body") })
      ContentType.ssz 200 "no resolver found for requested content-type" rfl rfl).1,
    (metrics_observe_envelope_status (NewSuccessResponse { json := some (Except.ok "body") })
      ContentType.ssz 200 "no resolver found for requested content-type" rfl rfl).2⟩

/-- In a concatenation whose first part has no body write and whose
second part has no header write, every header-write index precedes
every body-write index. -/
theorem setHeader_before_body_of_split (l₁ l₂ : List WAction)
    (h1 : ∀ a ∈ l₁, WAction.isBody a = false)
    (h2 : ∀ a ∈ l₂, WAction.isSetHeader a = false)
    (i j : Nat)
    (hi : (((l₁ ++ l₂).get? i).any WAction.isSetHeader) = true)
    (hj : (((l₁ ++ l₂).get? j).any WAction.isBody) = true) :
    i < j := by
  have hilt : i < l₁.length := by
    by_contra hge
    push_neg at hge
    rw [List.get?_append_right hge] at hi
    cases hx : l₂.get? (i - l₁.length) with
    | none => rw [hx] at hi; simp [Option.any] at hi
    | some a =>
      rw [hx] at hi
      simp [Option.any] at hi
      exact absurd hi (by simp [h2 a (List.get?_mem hx)])
  have hjge : l₁.length ≤ j := by
    by_contra hlt
    push_neg at hlt
    rw [List.get?_append hlt] at hj
    cases hx : l₁.get? j with
    | none => rw [hx] at hj; simp [Option.any] at hj
    | some a =>
      rw [hx] at hj
      simp [Option.any] at hj
      exact absurd hj (by simp [h1 a (List.get?_mem hx)])
  exact Nat.lt_of_lt_of_le hilt hjge

/-- C7: When the handler succeeds but `MarshalAs` fails, the dispatcher
writes a 500 `ErrorResponse` instead of the intended body and writes
none of the envelope's headers (the only header it touches is the error
response's own `Content-Type: application/json`); on the success path
every header write comes strictly before every body write. -/
theorem dispatcher_marshal_failure_and_header_order
    (resp : HTTPResponse) (ct : ContentType) :
    (∀ e, (resp.MarshalAs ct).1 = Except.error e →
      (wrappedHandler (some resp, none) ct).actions = writeErrorResponseActions e (some 500)
      ∧ WAction.writeStatus 500 ∈ (wrappedHandler (some resp, none) ct).actions
      ∧ ∀ n v, WAction.setHeader n v ∈ (wrappedHandler (some resp, none) ct).actions →
          n = "Content-Type" ∧ v = "application/json")
    ∧ (∀ d, (resp.MarshalAs ct).1 = Except.ok d →
      ∀ i j, (((wrappedHandler (some resp, none) ct).actions.get? i).any
            WAction.isSetHeader) = true →
        (((wrappedHandler (some resp, none) ct).actions.get? j).any WAction.isBody) = true →
        i < j) := by
  constructor
  · intro e hm
    have hact : (wrappedHandler (some resp, none) ct).actions
        = writeErrorResponseActions e (some 500) := by
      simp only [wrappedHandler, hm]
    refine ⟨hact, ?_, ?_⟩
    · rw [hact]
      simp [writeErrorResponseActions]
    · intro n v hmem
      rw [hact] at hmem
      simp [writeErrorResponseActions, jsonErrorBody] at hmem
      exact hmem
  · intro d hm i j hi hj
    simp only [wrappedHandler, hm] at hi hj
    rw [show (List.map (fun p => WAction.setHeader p.1 p.2) resp.headers
        ++ writeContentAwareActions d ct)
      = (List.map (fun p => WAction.setHeader p.1 p.2) resp.headers
          ++ [WAction.setHeader "Content-Type" ct.headerValue]) ++ [WAction.writeBody d] by
        simp [writeContentAwareActions]] at hi hj
    refine setHeader_before_body_of_split _ _ ?_ ?_ i j hi hj
    · intro a ha
      rcases List.mem_append.mp ha with hmap | hone
      · rcases List.mem_map.mp hmap with ⟨p, _, hp⟩
        rw [← hp]; rfl
      · simp at hone
        rw [hone]; rfl
    · intro a ha
      simp at ha
      rw [ha]; rfl

/-- Witness for C7: a 200 envelope with a `Cache-Control` header and
only a JSON producer. Marshaled as SSZ the dispatcher emits exactly the
500 error response; marshaled as JSON the header writes (indices 0 and
1) precede the body write (index 2). -/
theorem dispatcher_marshal_failure_and_header_order_witness :
    (((NewSuccessResponse { json := some (Except.ok "body") }).setCacheControl
        "public, s-max-age=30").MarshalAs ContentType.ssz).1
      = Except.error "no resolver found for requested content-type"
    ∧ (wrappedHandler
        (some ((NewSuccessResponse { json := some (Except.ok "body") }).setCacheControl
          "public, s-max-age=30"), none) ContentType.ssz).actions
      = writeErrorResponseActions "no resolver found for requested content-type" (some 500)
    ∧ (((NewSuccessResponse { json := some (Except.ok "body") }).setCacheControl
        "public, s-max-age=30").MarshalAs ContentType.json).1 = Except.ok "body"
    ∧ (0 : Nat) < 2 :=
  ⟨rfl,
    ((dispatcher_marshal_failure_and_header_order
      ((NewSuccessResponse { json := some (Except.ok "body") }).setCacheControl
        "public, s-max-age=30") ContentType.ssz).1
      "no resolver found for requested content-type" rfl).1,
    rfl,
    (dispatcher_marshal_failure_and_header_order
      ((NewSuccessResponse { json := some (Except.ok "body") }).setCacheControl
        "public, s-max-age=30") ContentType.json).2 "body" rfl 0 2 (by decide) (by decide)⟩

/-- C5 counterexample: in the exact scenario of the claim — a GET
`/eth/v1/beacon/blocks/123/root` request negotiated as JSON whose
block-root provider returns the 32-byte root `0xAA..AA` — the handler
does return a 200 success envelope, but its headers carry no
`Cache-Control` entry at all: the source of
`handleEthV1BeaconBlocksRoot` never calls `SetCacheControl`, so the
claimed `Cache-Control: public, s-max-age=6000` header is absent. -/
theorem blocksRoot_missing_cache_control :
    blockRootScenario.1.statusCode = some 200
    ∧ blockRootScenario.2.1 = none
    ∧ (blockRootScenario.1.headers.any fun p => p.1 == "Cache-Control") = false := by
  decide

/-- C5 amended: for a GET `/eth/v1/beacon/blocks/123/root` request
negotiated as JSON where the block-root provider returns a 32-byte
root, the handler returns a 200 success envelope whose JSON body is
`\x7b"root": "<lower-case hex of the 32 bytes, no 0x prefix>"\x7d` and
whose headers are empty — in particular no `Cache-Control` directive is
set. -/
theorem blocksRoot_scenario_amended :
    blockRootScenario.1.statusCode = some 200
    ∧ blockRootScenario.2.1 = none
    ∧ (blockRootScenario.1.MarshalAs ContentType.json).1
      = Except.ok
        "\x7b\"root\":\"aaaaaaaaaaaaaaaaaaaaaaaaaaaaaaaaaaaaaaaaaaaaaaaaaaaaaaaaaaaaaaaa\"\x7d"
    ∧ blockRootScenario.1.headers = [] := by
  decide

end Checkpointz
